import Mathlib

/-!
Verification development for the BYOK PRD/SDD consultant web application.

The repository is an Angular single-page application with two source units
relevant here:

* `app.component.ts` — the wizard / chat state machine (consultation chat,
  generation orchestration, SDD chat, attachments, reset).
* the Gemini service unit — API-key gating (`ensureInitialized`), chat/session
  construction, PRD and PlantUML generation with their prompt templates and
  post-processing (`cleanMarkdown`, the `@startuml … @enduml` extraction), and
  the SDD initial prompts.

The shallow embedding below translates the state-bearing methods into pure
Lean functions.  Asynchronous external calls (the generative API) are passed
in as explicit oracle arguments: an oracle maps the outgoing payload to
`Except Unit (Option String)` — `.error ()` models a rejected promise and
`.ok t` a resolved response whose `text` field is `t` (`none` models an
absent/undefined text field).  Angular signals become record fields; a
`window.alert` call is modelled by appending the alert text to an `alerts`
list.  JavaScript strings are modelled as `String` / `List Char`.
-/

namespace Byok

/-! ### Character / string helpers (JavaScript semantics) -/

/-- The whitespace class used by JavaScript `\s` and `String.trim`,
restricted to the ASCII range (space, tab, LF, VT, FF, CR); the inputs this
application manipulates around fences and delimiters are ASCII. -/
def isWsChar (c : Char) : Bool :=
  c == ' ' || c == '\t' || c == '\n' || c == '\r' ||
  c == Char.ofNat 11 || c == Char.ofNat 12

/-- Drop trailing whitespace (helper for `trimChars` and fence stripping). -/
def dropTrailingWs (cs : List Char) : List Char :=
  (cs.reverse.dropWhile isWsChar).reverse

/-- JavaScript `String.prototype.trim`. -/
def trimChars (cs : List Char) : List Char :=
  dropTrailingWs (cs.dropWhile isWsChar)

/-- JavaScript `String.prototype.trim` at the string level (used by the
truthiness guards `!input.trim()` of the component methods). -/
def jsTrim (s : String) : String :=
  (trimChars s.toList).asString

/-- JavaScript truthiness-based `a || b` on an optional string field:
`undefined`/`null` and the empty string are falsy. -/
def jsOr (t : Option String) (d : String) : String :=
  match t with
  | none => d
  | some s => if s = "" then d else s

/-- Split `cs` at the first (leftmost) occurrence of `pat`:
returns `some (before, after)` with `cs = before ++ pat ++ after`,
or `none` when `pat` does not occur in `cs`. -/
def splitOnFirst (pat : List Char) : List Char → Option (List Char × List Char)
  | [] => if pat = [] then some ([], []) else none
  | c :: rest =>
    if pat.isPrefixOf (c :: rest) then
      some ([], (c :: rest).drop pat.length)
    else
      match splitOnFirst pat rest with
      | some (pre, post) => some (c :: pre, post)
      | none => none

/-! ### PlantUML post-processing (`generatePlantUML`, service unit) -/

/-- The open delimiter recognised by `text.match(/@startuml([\s\S]*?)@enduml/)`. -/
def startTag : List Char := String.toList "@startuml"

/-- The close delimiter of the same regular expression. -/
def endTag : List Char := String.toList "@enduml"

/-- The three-character Markdown fence. -/
def fence3 : List Char := String.toList "```"

/-- The delimited extraction of `generatePlantUML`: the leftmost-starting,
shortest match of `/@startuml([\s\S]*?)@enduml/`, returned with both
delimiters (`@startuml${match[1]}@enduml`), or `none` when the pattern does
not match.  Searching the first `"@startuml"` and then the first `"@enduml"`
after it coincides with the regular expression's leftmost-match rule:
`"@enduml"` cannot begin strictly inside the literal `"@startuml"` (the only
`'@'` is its first character), and if no `"@enduml"` follows the first
`"@startuml"` then none follows any later one either. -/
def umlExtract (cs : List Char) : Option (List Char) :=
  match splitOnFirst startTag cs with
  | none => none
  | some (_, afterStart) =>
    match splitOnFirst endTag afterStart with
    | none => none
    | some (mid, _) => some (startTag ++ mid ++ endTag)

/-- Embeds `text.replace(/^```plantuml\s*/i, '')`: strip a case-insensitive
`"```plantuml"` at the start of the string together with the whitespace
following it; no-op when the string does not start with that fence. -/
def stripFencePlantuml (cs : List Char) : List Char :=
  if (String.toList "```plantuml").isPrefixOf (cs.map Char.toLower) then
    (cs.drop 11).dropWhile isWsChar
  else cs

/-- Embeds `text.replace(/^```\s*/, '')`: strip a leading `"```"` and the
whitespace following it. -/
def stripFenceOpen (cs : List Char) : List Char :=
  if fence3.isPrefixOf cs then
    (cs.drop 3).dropWhile isWsChar
  else cs

/-- Embeds `text.replace(/```\s*$/, '')`: remove a final `"```"` followed only by
whitespace.  The leftmost match of that anchored pattern is always the last
`"```"` of the string (anything after an earlier candidate would contain the
non-whitespace backticks of the later one), so this is: drop trailing
whitespace, then drop a final `"```"` if present — and keep the string
unchanged when the pattern does not match. -/
def stripFenceClose (cs : List Char) : List Char :=
  let r := cs.reverse.dropWhile isWsChar
  if fence3.isPrefixOf r then (r.drop 3).reverse else cs

/-- The full post-processing applied by `generatePlantUML` to the response
text: return the `@startuml…@enduml` block when the regular expression
matches; otherwise strip fence decoration and trim
(`text.replace(/^```plantuml\s*/i, '').replace(/^```\s*/, '').replace(/```\s*$/, '').trim()`). -/
def plantUmlPostprocess (cs : List Char) : List Char :=
  match umlExtract cs with
  | some r => r
  | none => trimChars (stripFenceClose (stripFenceOpen (stripFencePlantuml cs)))

/-! ### `cleanMarkdown` (service unit) -/

/-- The full-string pattern of `cleanMarkdown`,
`/^\s*```(?:markdown)?\s*([\s\S]*?)\s*```\s*$/i`: optional whitespace, an
opening fence with optional case-insensitive `markdown` tag, a body, and a
closing fence followed only by whitespace.  Returns the captured body (up to
surrounding whitespace, which the caller trims away) or `none` when the
anchored pattern does not match. -/
def cleanMarkdownFull (cs : List Char) : Option (List Char) :=
  let t1 := cs.dropWhile isWsChar
  if (String.toList "```").isPrefixOf t1 then
    let t2 := t1.drop 3
    let t3 := if (String.toList "markdown").isPrefixOf (t2.map Char.toLower)
              then t2.drop 8 else t2
    let t4 := t3.dropWhile isWsChar
    let r := t4.reverse.dropWhile isWsChar
    if (String.toList "```").isPrefixOf r then some (r.drop 3).reverse else none
  else none

/-- The `cleanMarkdown` helper of the service unit: if the whole text is a fenced block
(optionally tagged `markdown`), return the inner body trimmed; otherwise
strip a leading fence and a trailing fence independently and trim. -/
def cleanMarkdownL (cs : List Char) : List Char :=
  match cleanMarkdownFull cs with
  | some inner => trimChars inner
  | none =>
    let t1 := if ((String.toList "```").isPrefixOf (cs.dropWhile isWsChar)) then
        -- text.replace(/^\s*```(?:markdown)?\s*/i, '')
        let u := (cs.dropWhile isWsChar).drop 3
        let u := if (String.toList "markdown").isPrefixOf (u.map Char.toLower)
                 then u.drop 8 else u
        u.dropWhile isWsChar
      else cs
    -- text.replace(/\s*```\s*$/, '')
    let r := t1.reverse.dropWhile isWsChar
    let t2 := if (String.toList "```").isPrefixOf r
              then ((r.drop 3).dropWhile isWsChar).reverse else t1
    trimChars t2

/-- String-level wrapper of `cleanMarkdownL`. -/
def cleanMarkdown (s : String) : String :=
  (cleanMarkdownL s.toList).asString

/-! ### The Gemini service -/

/-- The service's credential state: `ai = true` iff `setApiKey` has been
called (i.e. `this.ai` is set). -/
structure GeminiService where
  ai : Bool
  deriving DecidableEq

/-- Method `setApiKey`: installs the credential (`this.ai = new GoogleGenAI(...)`). -/
def setApiKey (_svc : GeminiService) (_key : String) : GeminiService :=
  { ai := true }

/-- The two ways a service operation can fail from the caller's point of
view: the synchronous configuration error thrown by `ensureInitialized`, or
a rejected network call. -/
inductive CallError
  | config
  | delivery
  deriving DecidableEq

/-- The message of the configuration error thrown by `ensureInitialized`. -/
def configErrorMessage : String :=
  "API Key not set. Please provide a valid Gemini API Key."

/-- Method `ensureInitialized`: throws the configuration error when no credential
has been supplied. -/
def ensureInitialized (svc : GeminiService) : Except CallError Unit :=
  if svc.ai then Except.ok () else Except.error CallError.config

/-- The fixed model name (`gemini-2.5-flash`). -/
def geminiModel : String := "gemini-2.5-flash"

/-- The consultant persona's system instruction (`CONSULTANT_INSTRUCTION`). -/
def CONSULTANT_INSTRUCTION : String :=
  "\n您是一位經驗豐富的專案顧問，您的任務是根據使用者提供的初始專案構想，透過多輪對話來收集更多詳細資訊並釐清任何模糊之處。您的最終目標是為一個最小可行產品 (MVP) 定義其範圍。在整個對話過程中，請確保您的回應結構良好，易於閱讀，並且所有回應都必須使用繁體中文。\n"
  ++ "\n# Step by Step instructions\n"
  ++ "1. Acknowledge the user\x27s Project Idea and state your role as a project consultant in Traditional Chinese.\n"
  ++ "2. Ask a clarifying question about the Project Idea in Traditional Chinese, focusing on understanding its core purpose or target audience.\n"
  ++ "3. Evaluate the user\x27s response. If the MVP scope is not yet clearly defined or if there are still ambiguities, go back to step 2 and ask another clarifying question, making progress towards defining the MVP scope. Otherwise, proceed to step 4.\n"
  ++ "4. Summarize the clarified Project Idea and proposed MVP scope in a well-structured format in Traditional Chinese.\n"

/-- The architect persona's system instruction (`ARCHITECT_INSTRUCTION`). -/
def ARCHITECT_INSTRUCTION : String :=
  "\n您是一位資深軟體架構師與技術顧問。您的目標是協助使用者根據 PRD 生成高品質的軟體設計文件 (SDD)。\n"
  ++ "\n**核心原則 (針對 Gemini CLI 開發優化)**：\n"
  ++ "1. **目標受眾**：此 SDD 的讀者是 **AI Coding Agent (如 Gemini CLI)**。內容必須邏輯清晰、步驟明確，方便 AI 能夠依序讀取並生成程式碼。\n"
  ++ "2. **專案屬性**：預設為**公司內部工具**或**單機應用**。\n"
  ++ "3. **排除項目**：除非使用者特別要求，否則**嚴禁**包含容器化 (Docker)、K8s、CI/CD 或複雜的雲端部署章節。\n"
  ++ "4. **必要章節**：所有 SDD 結尾必須包含 **「實作路徑 (Implementation Roadmap)」**，詳細列出檔案建立順序與開發步驟。\n"
  ++ "\n**回應規則**：\n"
  ++ "1. 使用繁體中文回答。\n"
  ++ "2. 確保 Markdown 格式正確，便於渲染。\n"
  ++ "3. 保持開放態度，隨時準備根據使用者的回饋調整架構或細節。\n"

/-- A chat configuration as produced by `ai.chats.create`: the model, the
persona's system instruction, and the sampling temperature. -/
structure ChatConfig where
  model : String
  systemInstruction : String
  temperature : ℚ
  deriving DecidableEq

/-- Method `createChat`: the consultant-persona session (temperature 0.7);
fails with the configuration error when the credential is absent. -/
def createChat (svc : GeminiService) : Except CallError ChatConfig :=
  match ensureInitialized svc with
  | Except.error e => Except.error e
  | Except.ok _ =>
    Except.ok { model := geminiModel,
                systemInstruction := CONSULTANT_INSTRUCTION,
                temperature := (7 : ℚ) / 10 }

/-- Method `createSddChat`: the architect-persona session (temperature 0.5);
fails with the configuration error when the credential is absent. -/
def createSddChat (svc : GeminiService) : Except CallError ChatConfig :=
  match ensureInitialized svc with
  | Except.error e => Except.error e
  | Except.ok _ =>
    Except.ok { model := geminiModel,
                systemInstruction := ARCHITECT_INSTRUCTION,
                temperature := (5 : ℚ) / 10 }

/-- The PRD prompt template of `generatePRD`. -/
def prdPrompt (conversationHistory targetPlatform : String) : String :=
  "\nYou are a meticulous technical writer specializing in product documentation and an expert in Traditional Chinese. Your task is to generate a comprehensive Product Requirement Document (PRD) based on the provided project consultation details. The PRD must be formatted in Markdown and encoded in UTF-8 to ensure all Traditional Chinese characters are displayed correctly.\n"
  ++ "\nTarget Platform/Technology Stack: " ++ targetPlatform ++ "\n"
  ++ "\n# Step by Step instructions\n"
  ++ "1. Carefully review the Project Consultation For Mvp to understand all clarified project details and the defined scope for the Minimum Viable Product (MVP).\n"
  ++ "2. Begin writing the Product Requirement Document (PRD) in Markdown format, starting with a clear title in Traditional Chinese.\n"
  ++ "3. For each section of the PRD (e.g., Introduction, Features, User Stories, Technical Requirements, etc.), write the content in Traditional Chinese, ensuring it directly reflects the Project Consultation For Mvp.\n"
  ++ "4. Specifically for the \"Technical Requirements\" section, ensure the recommendations align with the \"" ++ targetPlatform ++ "\" platform.\n"
  ++ "5. After completing a section, review it to ensure it is clear, comprehensive, and accurately translated into Traditional Chinese.\n"
  ++ "6. Continue writing and reviewing sections until the entire PRD is complete, adhering to the Markdown format and ensuring all content is in Traditional Chinese and UTF-8 encoded.\n"
  ++ "\nProject Consultation For Mvp:\n\"\"\"\n" ++ conversationHistory ++ "\n\"\"\"\n"

/-- The PlantUML prompt template of `generatePlantUML`. -/
def plantUmlPrompt (conversationHistory targetPlatform : String) : String :=
  "\nYou are an expert in system architecture and PlantUML. Your goal is to generate VALID, SYNTACTICALLY CORRECT PlantUML code for a system based on the \"" ++ targetPlatform ++ "\" platform.\n"
  ++ "\n# Rules\n"
  ++ "1. Analyze the Project Consultation below.\n"
  ++ "2. Generate a System Architecture Diagram (Component Diagram) or Sequence Diagram that fits the \"" ++ targetPlatform ++ "\" architecture.\n"
  ++ "3. **STRICTLY FORBIDDEN**: Do NOT use `!include` or external libraries (like C4-PlantUML/stdlib) as they often cause rendering errors (404/400). Use standard PlantUML elements only (package, node, component, database, actor, interface).\n"
  ++ "4. Use `!theme plain` for a professional, clean look. **DO NOT** use `skinparam handwritten` (it causes syntax warnings).\n"
  ++ "5. Do NOT use non-standard characters in *identifiers* (variable names). You CAN use Traditional Chinese in *labels* (strings inside [] or \"\").\n"
  ++ "6. Keep the diagram concise.\n"
  ++ "7. Output ONLY the PlantUML code.\n"
  ++ "\nProject Consultation:\n\"\"\"\n" ++ conversationHistory ++ "\n\"\"\"\n"
  ++ "\nResponse Format:\n@startuml\n... code ...\n@enduml\n"

/-- Method `generatePRD`: credential check, one network call with the PRD prompt,
then `cleanMarkdown(response.text || '# Error Generating PRD')`.  The
network is an oracle from the outgoing prompt to the settled call. -/
def generatePRD (svc : GeminiService) (conversationHistory targetPlatform : String)
    (net : String → Except Unit (Option String)) : Except CallError String :=
  match ensureInitialized svc with
  | Except.error e => Except.error e
  | Except.ok _ =>
    match net (prdPrompt conversationHistory targetPlatform) with
    | Except.error _ => Except.error CallError.delivery
    | Except.ok t => Except.ok (cleanMarkdown (jsOr t "# Error Generating PRD"))

/-- Method `generatePlantUML`: credential check, one network call with the diagram
prompt, then the delimiter/fence post-processing of
`plantUmlPostprocess` applied to `response.text || ''`. -/
def generatePlantUML (svc : GeminiService) (conversationHistory targetPlatform : String)
    (net : String → Except Unit (Option String)) : Except CallError String :=
  match ensureInitialized svc with
  | Except.error e => Except.error e
  | Except.ok _ =>
    match net (plantUmlPrompt conversationHistory targetPlatform) with
    | Except.error _ => Except.error CallError.delivery
    | Except.ok t => Except.ok ((plantUmlPostprocess (jsOr t "").toList).asString)

/-- The four SDD generation modes (`SddMode`). -/
inductive SddMode
  | comprehensive
  | simplified
  | specific
  | interactive
  deriving DecidableEq

/-- The shared PRD section of every SDD initial prompt (`prdSection`). -/
def sddPrdSection (prdContent : String) : String :=
  "\n## 輸入的 PRD 內容\n\"\"\"\n" ++ prdContent ++ "\n\"\"\"\n"

/-- Method `getSddInitialPrompt`: the initial prompt string for the SDD chat,
selected by the mode; all modes are handled via chat to support follow-up
interactions. -/
def getSddInitialPrompt (prdContent : String) (mode : SddMode) : String :=
  let prdSection := sddPrdSection prdContent
  match mode with
  | SddMode.comprehensive =>
    "\n" ++ prdSection ++ "\n\n請根據上述 PRD，直接生成一份**完整的 SDD（軟體設計文檔）**。\n"
    ++ "\n## 專案背景：\n此專案為**公司內部工具**，將由 **Gemini CLI (AI Agent)** 讀取此文件並協助撰寫程式碼。\n"
    ++ "\n## 要求章節：\n"
    ++ "1. **系統架構設計**：\n"
    ++ "   - 請根據 PRD 需求選擇**最適合的技術棧**（前端框架、後端語言、資料庫）。\n"
    ++ "   - **請勿**受限於輕量級框架，若系統複雜，請採用正規企業級架構（例如：Angular/React + Node/Java/C# + PostgreSQL/MySQL 等）。\n"
    ++ "   - 請明確定義資料庫選擇（可使用需安裝的資料庫，如 Postgres，只要能在本機運行即可）。\n"
    ++ "2. **數據模型設計**：ER 圖描述、資料表結構（Table Schema）。\n"
    ++ "3. **API 設計規範**：主要 RESTful API 端點、請求/響應範例。\n"
    ++ "4. **前端架構設計**：組件結構、狀態管理、路由規劃。\n"
    ++ "5. **核心模組設計**：核心功能的類別或介面定義。\n"
    ++ "6. **安全與配置**：認證機制、環境變數 (.env) 管理。\n"
    ++ "7. **實作路徑 (Implementation Roadmap)** (關鍵)：\n"
    ++ "   - 請按順序條列開發步驟，供 AI Agent 執行（例如：1. 初始化專案, 2. 設定資料庫, 3. 實作 API, 4. 前端開發...）。\n"
    ++ "\n**注意**：\n"
    ++ "- **不需要** Docker、K8s 或雲端部署章節。\n"
    ++ "- 請著重於**本機開發環境 (Localhost)** 的設置與執行指南。\n"
    ++ "- 請使用 Markdown 格式輸出。\n"
  | SddMode.simplified =>
    "\n" ++ prdSection ++ "\n\n請根據上述 PRD，直接生成一份**精簡版 SDD**。此模式專為**初學者**與**快速驗證**設計，且特別針對 **AI 輔助開發 (如 Gemini CLI)** 進行優化。\n"
    ++ "\n## 技術選型指引 (強制)：\n"
    ++ "1. **核心原則**：不使用容器化 (Docker)、不需複雜雲端部署。目標是在本機 (Localhost) 直接運行。\n"
    ++ "2. **介面要求**：**必須包含圖形化使用者介面 (Web UI)**。除非 PRD 明確要求，否則**嚴禁**設計為純 CLI (Command Line Interface) 工具。\n"
    ++ "3. **後端/全棧**：強烈推薦 **Python** 生態系 (建議使用 **Streamlit** 快速建構 UI，或 **FastAPI/Flask** 搭配 **HTML Templates**)。\n"
    ++ "4. **資料庫**：使用 **SQLite** (單一檔案資料庫)，無需安裝伺服器軟體。\n"
    ++ "\n## SDD 內容要求 (請確保 Markdown 結構清晰)：\n"
    ++ "1. **新手友善的架構詳解**：\n"
    ++ "   - 用淺顯易懂的方式解釋系統運作流程（前端 UI -> API -> Logic -> SQLite）。\n"
    ++ "2. **核心模組列表**：列出最關鍵的功能模組。\n"
    ++ "3. **簡易資料庫設計**：列出資料表與關鍵欄位。\n"
    ++ "4. **API 與頁面規劃**：列出核心 API 端點與前端頁面結構。\n"
    ++ "5. **AI 協作實作路徑 (Implementation Roadmap)** (重要)：\n"
    ++ "   - 這是為了讓 Gemini CLI 或其他 AI Coding Agent 能依序執行開發。\n"
    ++ "   - 請按順序條列具體步驟：\n"
    ++ "     1. 環境建置 (venv, requirements.txt)。\n"
    ++ "     2. 資料庫初始化 (models.py, init_db.py)。\n"
    ++ "     3. 後端與前端開發 (app.py 或 main.py + templates)。\n"
    ++ "     4. 整合測試。\n"
    ++ "\n請使用 Markdown 格式輸出。\n"
  | SddMode.specific =>
    "\n" ++ prdSection ++ "\n\n我需要你為這個專案推薦適合的技術棧，並生成 SDD。\n"
    ++ "\n## 專案背景：\n此專案為**內部工具**，將由 **AI Agent** 協助開發。\n"
    ++ "\n## 步驟 1：技術棧推薦與確認\n"
    ++ "請先不要生成完整的 SDD。請先分析 PRD 的需求規模與複雜度，然後：\n"
    ++ "1. **推薦一組技術棧**：\n"
    ++ "   - 請優先考慮**本機開發友善 (Localhost-friendly)** 的方案。\n"
    ++ "   - **不需強制輕量化**：若專案適合，可推薦企業級技術棧（如 Java Spring Boot, .NET Core, Angular, React 等）。\n"
    ++ "   - **排除** 容器化 (Docker/K8s) 相關技術。\n"
    ++ "2. **評估開發難度**（簡單/中等/困難）並說明理由。\n"
    ++ "3. **詢問我是否接受此技術棧**。\n"
    ++ "\n待我確認技術棧後，請在下一次回應中生成詳細 SDD，並務必包含 **「實作路徑 (Implementation Roadmap)」** 章節。\n"
  | SddMode.interactive =>
    "\n" ++ prdSection ++ "\n\n我想要生成 SDD，但我希望透過**漸進式詢問**的方式來決定技術細節。\n"
    ++ "\n## 專案背景：\n此專案為**內部工具**，不需考慮 Docker 或複雜雲端部署。最終產出的 SDD 必須包含供 AI Agent 執行的 **「實作路徑」**。\n"
    ++ "\n## 請按以下步驟進行：\n"
    ++ "\n### 第 1 步：PRD 分析\n"
    ++ "請先分析 PRD 並列出：\n"
    ++ "1. 核心功能列表（5-10 個）。\n"
    ++ "2. 技術複雜度評估。\n"
    ++ "3. 需要做哪些關鍵技術決策（例如：前端要用 Web 還是 CLI？資料庫要用 SQL 還是 NoSQL？）。\n"
    ++ "\n請先執行第 1 步，並在結尾準備進入第 2 步的決策詢問。\n"

/-! ### `diagramUrl` (app component, Kroki URL) -/

/-- UTF-8 encoding of one code point, as `new TextEncoder().encode` does. -/
def utf8EncodeChar (c : Char) : List Nat :=
  let n := c.toNat
  if n < 0x80 then [n]
  else if n < 0x800 then [0xC0 + n / 64, 0x80 + n % 64]
  else if n < 0x10000 then
    [0xE0 + n / 4096, 0x80 + (n / 64) % 64, 0x80 + n % 64]
  else
    [0xF0 + n / 262144, 0x80 + (n / 4096) % 64, 0x80 + (n / 64) % 64, 0x80 + n % 64]

/-- Embeds `new TextEncoder().encode(code)`: the UTF-8 bytes of the string. -/
def utf8Bytes (s : String) : List Nat :=
  (s.toList.map utf8EncodeChar).flatten

/-- The base64 alphabet used by `btoa`. -/
def base64Alphabet : List Char :=
  String.toList "ABCDEFGHIJKLMNOPQRSTUVWXYZabcdefghijklmnopqrstuvwxyz0123456789+/"

/-- One base64 digit. -/
def b64Digit (n : Nat) : Char := base64Alphabet.getD n 'A'

/-- Embeds `btoa` over the byte list obtained from the compressed `Uint8Array`
(each byte was turned into one char by `String.fromCharCode`): standard
base64 with `=` padding. -/
def b64Encode : List Nat → List Char
  | [] => []
  | [a] => [b64Digit (a / 4), b64Digit (a % 4 * 16), '=', '=']
  | [a, b] => [b64Digit (a / 4), b64Digit (a % 4 * 16 + b / 16), b64Digit (b % 16 * 4), '=']
  | a :: b :: c :: rest =>
    b64Digit (a / 4) :: b64Digit (a % 4 * 16 + b / 16) ::
    b64Digit (b % 16 * 4 + c / 64) :: b64Digit (c % 64) :: b64Encode rest

/-- Embeds `.replace(/\+/g, '-').replace(/\//g, '_')`: the URL-safe substitutions
applied to the base64 output. -/
def urlSafe (cs : List Char) : List Char :=
  cs.map fun c => if c = '+' then '-' else if c = '/' then '_' else c

/-- The fixed Kroki viewer endpoint template. -/
def krokiBase : String := "https://kroki.io/plantuml/svg/"

/-- The `diagramUrl` computed signal: empty for empty diagram source;
otherwise UTF-8 encode, Deflate-compress, base64 with URL-safe
substitutions, appended to the fixed viewer endpoint.  The Deflate codec
(`pako.deflate`, level 9) is an external library collaborator and is passed
in as a function argument; `none` models the codec throwing, which the
`catch` turns into `''`. -/
def diagramUrl (deflate : List Nat → Option (List Nat)) (code : String) : String :=
  if code = "" then ""
  else
    match deflate (utf8Bytes code) with
    | none => ""
    | some compressed => krokiBase ++ (urlSafe (b64Encode compressed)).asString

/-! ### App component data model -/

/-- Message roles (`'user' | 'model'`; the spec calls `model` the assistant
role). -/
inductive Role
  | user
  | model
  deriving DecidableEq

/-- A chat message: role, text, and the attachment preview URLs
(`images?: string[]`, `[]` standing for the absent field). -/
structure Message where
  role : Role
  text : String
  images : List String := []
  deriving DecidableEq

/-- A pending image attachment (`ImageAttachment`). -/
structure ImageAttachment where
  mimeType : String
  data : String
  url : String
  deriving DecidableEq

/-- The consultation wizard phases (`AppState`). -/
inductive AppState
  | initial
  | consulting
  | generating
  | finished
  deriving DecidableEq

/-- One part of a multimodal chat message (`Part` of the API client). -/
inductive Part
  | text (t : String)
  | inlineData (mimeType data : String)
  deriving DecidableEq

/-- The payload of one `chat.sendMessage` call: plain text or a part list. -/
inductive ChatPayload
  | text (t : String)
  | parts (ps : List Part)
  deriving DecidableEq

/-- A settled chat call: `.error ()` for a rejected promise, `.ok t` for a
response whose `text` field is `t`. -/
abbrev ChatOutcome := Except Unit (Option String)

/-- A chat network oracle: what each possible outgoing payload would settle
to.  Quantifying theorems over the oracle models the external service. -/
abbrev ChatNet := ChatPayload → ChatOutcome

/-- The state of `AppComponent`: every signal and plain field that the
claim-relevant methods read or write.  `chatInstance`/`sddChatInstance` are
`true` iff the TypeScript field is non-null; `alerts` accumulates the texts
passed to `window.alert`. -/
structure App where
  state : AppState
  targetPlatform : String
  messages : List Message
  userInput : String
  selectedImages : List ImageAttachment
  isChatLoading : Bool
  chatInstance : Bool
  prdContent : String
  plantUmlCode : String
  generationStatus : String
  sddInput : String
  sddMode : SddMode
  sddResult : String
  isSddGenerating : Bool
  sddChatInstance : Bool
  sddMessages : List Message
  sddReplyInput : String
  zoomLevel : ℚ
  panX : ℚ
  panY : ℚ
  alerts : List String

/-- The initial component state (the field initializers of `AppComponent`). -/
def initApp : App where
  state := AppState.initial
  targetPlatform := "Python"
  messages := []
  userInput := ""
  selectedImages := []
  isChatLoading := false
  chatInstance := false
  prdContent := ""
  plantUmlCode := ""
  generationStatus := ""
  sddInput := ""
  sddMode := SddMode.simplified
  sddResult := ""
  isSddGenerating := false
  sddChatInstance := false
  sddMessages := []
  sddReplyInput := ""
  zoomLevel := 1
  panX := 0
  panY := 0
  alerts := []

/-! ### Chat functionality (`startConsultation`, `sendMessage`) -/

/-- The part list built for a send that carries images: the text part (or
the default `請分析這些圖片` caption in `startConsultation` when the idea
text is falsy), followed by one `inlineData` part per attachment. -/
def imageParts (textPart : List Part) (images : List ImageAttachment) : List Part :=
  textPart ++ images.map fun img => Part.inlineData img.mimeType img.data

/-- Method `startConsultation`: guard on empty input with no attachments; append
the user message (with preview URLs), clear the input and attachments, set
the loading flag, create the consultant chat — a synchronous throw when the
credential is absent, which aborts the method with the flag still set — then
send either the plain text or the part list, appending the reply or the
`發生錯誤，請稍後再試。` fallback, and finally clear the loading flag. -/
def startConsultation (s : App) (svc : GeminiService) (net : ChatNet) : App :=
  if jsTrim s.userInput = "" ∧ s.selectedImages = [] then s
  else
    let initialIdea := s.userInput
    let images := s.selectedImages
    let s1 : App :=
      { s with state := AppState.consulting,
               messages := s.messages ++
                 [{ role := Role.user, text := initialIdea,
                    images := images.map ImageAttachment.url }],
               userInput := "", selectedImages := [],
               isChatLoading := true }
    match createChat svc with
    | Except.error _ => s1   -- unhandled throw: no reply, flag left set
    | Except.ok _ =>
      let s2 : App := { s1 with chatInstance := true }
      let payload : ChatPayload :=
        if images.length > 0 then
          ChatPayload.parts (imageParts
            (if initialIdea ≠ "" then [Part.text initialIdea]
             else [Part.text "請分析這些圖片"]) images)
        else ChatPayload.text initialIdea
      let s3 : App :=
        match net payload with
        | Except.ok t =>
          { s2 with messages := s2.messages ++
              [{ role := Role.model, text := jsOr t "" }] }
        | Except.error _ =>
          { s2 with messages := s2.messages ++
              [{ role := Role.model, text := "發生錯誤，請稍後再試。" }] }
      { s3 with isChatLoading := false }

/-- Method `sendMessage`: guard on empty input with no attachments or a missing
chat instance; append the user message, clear the input and attachments,
set the loading flag, send either plain text or the part list, append the
reply or the `連線錯誤。` fallback, and finally clear the loading flag. -/
def sendMessage (s : App) (net : ChatNet) : App :=
  if (jsTrim s.userInput = "" ∧ s.selectedImages = []) ∨ s.chatInstance = false then s
  else
    let text := s.userInput
    let images := s.selectedImages
    let s1 : App :=
      { s with messages := s.messages ++
                 [{ role := Role.user, text := text,
                    images := images.map ImageAttachment.url }],
               userInput := "", selectedImages := [],
               isChatLoading := true }
    let payload : ChatPayload :=
      if images.length > 0 then
        ChatPayload.parts (imageParts
          (if text ≠ "" then [Part.text text] else []) images)
      else ChatPayload.text text
    let s2 : App :=
      match net payload with
      | Except.ok t =>
        { s1 with messages := s1.messages ++
            [{ role := Role.model, text := jsOr t "" }] }
      | Except.error _ =>
        { s1 with messages := s1.messages ++
            [{ role := Role.model, text := "連線錯誤。" }] }
    { s2 with isChatLoading := false }

/-- Method `removeImage(index)`: `images.filter((_, i) => i !== index)`. -/
def removeImage (images : List ImageAttachment) (index : Nat) : List ImageAttachment :=
  (images.enum.filter fun p => p.1 ≠ index).map Prod.snd

/-! ### Generation logic (`finishAndGenerate`) -/

/-- The transcript compiled by `finishAndGenerate` from the message
history. -/
def compileHistory (msgs : List Message) : String :=
  String.intercalate "\n\n" <| msgs.map fun m =>
    let content := (if m.role = Role.user then "User" else "Consultant") ++ ": " ++ m.text
    if m.images.length > 0 then
      content ++ "\n[User uploaded " ++ toString m.images.length ++ " image(s)]"
    else content

/-- Method `finishAndGenerate`: enter the `generating` phase, compile the
transcript, generate the PRD and then the diagram sequentially (each its
own oracle), storing each artifact and updating the progress label as each
step completes; on success move to `finished`, and on any failure revert
the phase to `consulting` and alert `生成失敗，請重試`. -/
def finishAndGenerate (s : App) (svc : GeminiService)
    (netPrd netUml : String → Except Unit (Option String)) : App :=
  let s0 : App := { s with state := AppState.generating }
  let history := compileHistory s0.messages
  let s1 : App := { s0 with generationStatus := "正在分析對話紀錄..." }
  let s2 : App := { s1 with generationStatus := "步驟 1/2: 正在撰寫產品需求文件 (PRD)..." }
  match generatePRD svc history s2.targetPlatform netPrd with
  | Except.error _ =>
    { s2 with state := AppState.consulting, alerts := s2.alerts ++ ["生成失敗，請重試"] }
  | Except.ok prd =>
    let s3 : App := { s2 with prdContent := prd,
                              generationStatus := "步驟 2/2: 正在繪製系統架構圖 (PlantUML)..." }
    match generatePlantUML svc history s3.targetPlatform netUml with
    | Except.error _ =>
      { s3 with state := AppState.consulting, alerts := s3.alerts ++ ["生成失敗，請重試"] }
    | Except.ok diagram =>
      let s4 : App := { s3 with plantUmlCode := diagram,
                                generationStatus := "完成！正在準備預覽..." }
      { s4 with state := AppState.finished }

/-! ### Reset and zoom -/

/-- Method `resetZoom`. -/
def resetZoom (s : App) : App :=
  { s with zoomLevel := 1, panX := 0, panY := 0 }

/-- Method `reset`: back to the idle phase with history, artifacts, chat instance
and pending attachments cleared, and the diagram viewer zoom reset. -/
def reset (s : App) : App :=
  resetZoom { s with state := AppState.initial,
                     messages := [],
                     prdContent := "",
                     plantUmlCode := "",
                     chatInstance := false,
                     selectedImages := [] }

/-! ### SDD logic (`generateSdd`, `sendSddReply`) -/

/-- Method `generateSdd`: guard on blank SDD input; set the busy flag, clear the
SDD history, create the architect chat — a synchronous throw when the
credential is absent aborts the method with the flag still set and the
history already cleared — then send the mode-selected initial prompt; on
success append the reply and store `cleanMarkdown` of it as the result, on
failure alert `對話啟動失敗`; finally clear the busy flag. -/
def generateSdd (s : App) (svc : GeminiService)
    (net : String → Except Unit (Option String)) : App :=
  if jsTrim s.sddInput = "" then s
  else
    let s1 : App := { s with isSddGenerating := true, sddMessages := [] }
    match createSddChat svc with
    | Except.error _ => s1   -- unhandled throw: busy flag left set
    | Except.ok _ =>
      let s2 : App := { s1 with sddChatInstance := true }
      let prompt := getSddInitialPrompt s2.sddInput s2.sddMode
      let s3 : App :=
        match net prompt with
        | Except.ok t =>
          let text := jsOr t ""
          { s2 with sddMessages := s2.sddMessages ++ [{ role := Role.model, text := text }],
                    sddResult := cleanMarkdown text }
        | Except.error _ =>
          { s2 with alerts := s2.alerts ++ ["對話啟動失敗"] }
      { s3 with isSddGenerating := false }

/-- Method `sendSddReply`: guard on blank reply input or a missing SDD chat
instance; clear the input, append the user message, set the busy flag, send
the text; on success append the reply and store `cleanMarkdown` of it as
the result, on failure append the `連線錯誤，請重試。` fallback; finally
clear the busy flag. -/
def sendSddReply (s : App) (net : String → Except Unit (Option String)) : App :=
  if jsTrim s.sddReplyInput = "" ∨ s.sddChatInstance = false then s
  else
    let text := s.sddReplyInput
    let s1 : App := { s with sddReplyInput := "",
                             sddMessages := s.sddMessages ++ [{ role := Role.user, text := text }],
                             isSddGenerating := true }
    let s2 : App :=
      match net text with
      | Except.ok t =>
        let respText := jsOr t ""
        { s1 with sddMessages := s1.sddMessages ++ [{ role := Role.model, text := respText }],
                  sddResult := cleanMarkdown respText }
      | Except.error _ =>
        { s1 with sddMessages := s1.sddMessages ++ [{ role := Role.model, text := "連線錯誤，請重試。" }] }
    { s2 with isSddGenerating := false }

/-! ### Send sequences (for the history-shape claims) -/

/-- A service with a credential installed (the state after `submitApiKey`
with a non-blank key). -/
def svcWithKey : GeminiService := { ai := true }

/-- A service on which `setApiKey` was never called. -/
def svcNoKey : GeminiService := { ai := false }

/-- Run a sequence of successful `sendMessage` calls: each step models the
user typing `t` and pressing send, with the external call resolving to a
response whose `text` field is `r` (one call is in flight at a time, so
each call's settled outcome is one fixed response). -/
def runOkSends (s : App) : List (String × Option String) → App
  | [] => s
  | (t, r) :: rest =>
    runOkSends (sendMessage { s with userInput := t } (fun _ => Except.ok r)) rest

/-- A whole successful consultation session: `startConsultation` on the
fresh component with the idea text (and a successful first call resolving
to `r0`), followed by successful `sendMessage` calls. -/
def consultationRun (idea : String) (r0 : Option String)
    (sends : List (String × Option String)) : App :=
  runOkSends
    (startConsultation { initApp with userInput := idea } svcWithKey
      (fun _ => Except.ok r0))
    sends

/-- The role sequence of `n` completed turns: user/assistant alternating,
starting with user. -/
def altRoles : Nat → List Role
  | 0 => []
  | n + 1 => Role.user :: Role.model :: altRoles n

/-! ### Occurrence predicates for the delimiter extraction -/

/-- Whether `pat` occurs in `cs` at index `i`. -/
def occursAt (pat cs : List Char) (i : Nat) : Bool :=
  pat.isPrefixOf (cs.drop i)

/-- No `@startuml`/`@enduml` delimiter pair occurs in `cs` (no open
delimiter with a close delimiter at or after the open delimiter's end) —
the condition under which `/@startuml([\s\S]*?)@enduml/` does not match. -/
def noUmlPair (cs : List Char) : Prop :=
  ∀ i, i < cs.length → ∀ j, j < cs.length →
    ¬(occursAt startTag cs i = true ∧ occursAt endTag cs j = true ∧ i + 9 ≤ j)

instance noUmlPair.decidable (cs : List Char) : Decidable (noUmlPair cs) := by
  unfold noUmlPair
  infer_instance

/-! ### Lemmas about `splitOnFirst` -/

lemma splitOnFirst_sound {pat : List Char} :
    ∀ {cs a b : List Char}, splitOnFirst pat cs = some (a, b) → cs = a ++ pat ++ b := by
  intro cs
  induction cs with
  | nil =>
    intro a b h
    unfold splitOnFirst at h
    by_cases hp : pat = []
    · simp [hp] at h
      simp [hp, h.1, h.2]
    · simp [hp] at h
  | cons c rest ih =>
    intro a b h
    unfold splitOnFirst at h
    by_cases hp : pat.isPrefixOf (c :: rest)
    · simp [hp] at h
      obtain ⟨ha, hb⟩ := h
      subst ha
      subst hb
      obtain ⟨t, ht⟩ := List.isPrefixOf_iff_prefix.mp hp
      simp only [List.nil_append]
      rw [← ht, List.drop_left]
    · simp [hp] at h
      cases heq : splitOnFirst pat rest with
      | none => rw [heq] at h; exact absurd h (by simp)
      | some pq =>
        obtain ⟨p, q⟩ := pq
        rw [heq] at h
        simp at h
        rw [← h.1, ← h.2]
        have := ih heq
        simp [this]

lemma splitOnFirst_first {pat : List Char} (hne : pat ≠ []) :
    ∀ (a b : List Char),
      (∀ i, i < a.length → occursAt pat (a ++ pat ++ b) i = false) →
      splitOnFirst pat (a ++ pat ++ b) = some (a, b) := by
  intro a
  induction a with
  | nil =>
    intro b _
    obtain ⟨p, ps, rfl⟩ : ∃ p ps, pat = p :: ps := by
      cases pat with
      | nil => exact absurd rfl hne
      | cons p ps => exact ⟨p, ps, rfl⟩
    show splitOnFirst (p :: ps) (p :: (ps ++ b)) = some ([], b)
    have hpre : (p :: ps).isPrefixOf (p :: (ps ++ b)) := by
      exact List.isPrefixOf_iff_prefix.mpr ⟨b, by simp⟩
    unfold splitOnFirst
    simp only [hpre, if_true]
    congr 1
    have : (p :: (ps ++ b)) = (p :: ps) ++ b := by simp
    rw [this, List.drop_left]
  | cons x a' ih =>
    intro b h
    have h0 : pat.isPrefixOf (x :: (a' ++ pat ++ b)) = false := by
      have := h 0 (by simp)
      simpa [occursAt] using this
    show splitOnFirst pat (x :: (a' ++ pat ++ b)) = some (x :: a', b)
    unfold splitOnFirst
    simp only [h0]
    rw [ih b (fun i hi => by
      have := h (i + 1) (by simpa using Nat.succ_lt_succ hi)
      simpa [occursAt] using this)]
    simp

lemma occursAt_append {pat x t : List Char} :
    occursAt pat (x ++ pat ++ t) x.length = true := by
  unfold occursAt
  have : (x ++ pat ++ t).drop x.length = pat ++ t := by
    rw [List.append_assoc, List.drop_left]
  rw [this]
  exact List.isPrefixOf_iff_prefix.mpr ⟨t, rfl⟩

/-- If the extraction succeeds, a delimiter pair occurs. -/
lemma umlExtract_some_pair {cs r : List Char} (h : umlExtract cs = some r) :
    ¬ noUmlPair cs := by
  unfold umlExtract at h
  cases h1 : splitOnFirst startTag cs with
  | none => simp [h1] at h
  | some pr =>
    obtain ⟨p, rest⟩ := pr
    cases h2 : splitOnFirst endTag rest with
    | none => simp [h1, h2] at h
    | some mq =>
      obtain ⟨m, q⟩ := mq
      have hst : startTag.length = 9 := by decide
      have het : endTag.length = 7 := by decide
      have hcs : cs = p ++ startTag ++ rest := splitOnFirst_sound h1
      have hrest : rest = m ++ endTag ++ q := splitOnFirst_sound h2
      intro hno
      have hi : occursAt startTag cs p.length = true := by
        rw [hcs]; exact occursAt_append
      have hj : occursAt endTag cs (p.length + 9 + m.length) = true := by
        have hsplit : cs = (p ++ startTag ++ m) ++ endTag ++ q := by
          rw [hcs, hrest]; simp
        have hlen : (p ++ startTag ++ m).length = p.length + 9 + m.length := by
          simp only [List.length_append, hst]
        rw [hsplit, ← hlen]
        exact occursAt_append
      have hlencs : cs.length = p.length + 9 + m.length + 7 + q.length := by
        rw [hcs, hrest]
        simp only [List.length_append, hst, het]
        omega
      have hleni : p.length < cs.length := by omega
      have hlenj : p.length + 9 + m.length < cs.length := by omega
      exact hno p.length hleni (p.length + 9 + m.length) hlenj ⟨hi, hj, by omega⟩

/-- If no delimiter pair occurs, the extraction fails over to the fence
stripping. -/
lemma umlExtract_eq_none {cs : List Char} (h : noUmlPair cs) :
    umlExtract cs = none := by
  cases heq : umlExtract cs with
  | none => rfl
  | some r => exact absurd h (umlExtract_some_pair heq)

/-! ### Lemmas about whitespace and fences -/

lemma dropWhile_ws_fence_append (y : List Char) :
    (fence3 ++ y).dropWhile isWsChar = fence3 ++ y := by
  rw [show fence3 = [Char.ofNat 96, Char.ofNat 96, Char.ofNat 96] from by decide]
  simp [List.dropWhile_cons, show isWsChar (Char.ofNat 96) = false from by decide]

lemma dropWhile_ws_append_fence3 (l : List Char) :
    (l ++ fence3).dropWhile isWsChar = l.dropWhile isWsChar ++ fence3 := by
  induction l with
  | nil => simpa using dropWhile_ws_fence_append []
  | cons c t ih =>
    by_cases hc : isWsChar c
    · simp [List.dropWhile_cons, hc, ih]
    · simp [List.dropWhile_cons, hc]

lemma dropWhile_idem (p : Char → Bool) (l : List Char) :
    (l.dropWhile p).dropWhile p = l.dropWhile p := by
  induction l with
  | nil => rfl
  | cons c t ih =>
    by_cases hc : p c
    · simp [List.dropWhile_cons, hc, ih]
    · simp [List.dropWhile_cons, hc]

lemma isPrefixOf_append_self (l y : List Char) : l.isPrefixOf (l ++ y) = true :=
  List.isPrefixOf_iff_prefix.mpr ⟨y, rfl⟩

lemma drop_fence3 (y : List Char) : (fence3 ++ y).drop 3 = y := by
  have h := List.drop_left fence3 y
  rwa [show fence3.length = 3 from by decide] at h

lemma trimChars_dropWhile (l : List Char) :
    trimChars (l.dropWhile isWsChar) = trimChars l := by
  unfold trimChars
  rw [dropWhile_idem]

/-! ### Claim theorems -/

/-- Claim C4: the diagram post-processing of `generatePlantUML` is a
three-way fallback.  (1) If the reply contains the `@startuml…@enduml`
delimiter pair (decomposed as `pre ++ "@startuml" ++ mid ++ "@enduml" ++
post`, with the open delimiter at its first occurrence and the close
delimiter the first one after it, which is where the regular expression
matches), the result is exactly the delimited substring including both
delimiters, discarding the leading and trailing noise.  (2) Otherwise, if
the reply is wrapped in a generic Markdown code fence (and does not open
with a `"```plantuml"` fence, which the code strips together with its
language tag), the fence decoration is stripped and the inner text
returned trimmed.  (3) Otherwise the full cleaned (trimmed) text is
returned verbatim.  The post-processing is a total function, so no failure
is raised for malformed diagram syntax. -/
theorem claim_C4_extraction :
    (∀ (text pre mid post : List Char),
        text = pre ++ startTag ++ mid ++ endTag ++ post →
        (∀ i, i < pre.length → occursAt startTag text i = false) →
        (∀ i, i < mid.length → occursAt endTag (mid ++ endTag ++ post) i = false) →
        plantUmlPostprocess text = startTag ++ mid ++ endTag) ∧
    (∀ (text inner : List Char),
        noUmlPair text →
        text = fence3 ++ inner ++ fence3 →
        (String.toList "```plantuml").isPrefixOf (text.map Char.toLower) = false →
        plantUmlPostprocess text = trimChars inner) ∧
    (∀ (text : List Char),
        noUmlPair text →
        (String.toList "```plantuml").isPrefixOf (text.map Char.toLower) = false →
        fence3.isPrefixOf text = false →
        fence3.isPrefixOf (text.reverse.dropWhile isWsChar) = false →
        plantUmlPostprocess text = trimChars text) := by
  refine ⟨?_, ?_, ?_⟩
  · intro text pre mid post h1 h2 h3
    have hre : text = pre ++ startTag ++ (mid ++ endTag ++ post) := by
      rw [h1]; simp [List.append_assoc]
    rw [hre] at h2
    have e1 : splitOnFirst startTag (pre ++ startTag ++ (mid ++ endTag ++ post)) =
        some (pre, mid ++ endTag ++ post) :=
      splitOnFirst_first (by decide) pre (mid ++ endTag ++ post) h2
    have e2 : splitOnFirst endTag (mid ++ endTag ++ post) = some (mid, post) :=
      splitOnFirst_first (by decide) mid post h3
    rw [hre]
    simp only [List.append_assoc] at e1 e2
    simp [plantUmlPostprocess, umlExtract, e1, e2]
  · intro text inner hno hshape hpl
    subst hshape
    have hnone : umlExtract (fence3 ++ inner ++ fence3) = none := umlExtract_eq_none hno
    unfold plantUmlPostprocess
    rw [hnone]
    have h1 : stripFencePlantuml (fence3 ++ inner ++ fence3) = fence3 ++ inner ++ fence3 := by
      unfold stripFencePlantuml
      simp only [hpl, Bool.false_eq_true, if_false]
    have h2 : stripFenceOpen (fence3 ++ inner ++ fence3) =
        inner.dropWhile isWsChar ++ fence3 := by
      unfold stripFenceOpen
      simp only [List.append_assoc, isPrefixOf_append_self, eq_self_iff_true, if_true,
        drop_fence3, dropWhile_ws_append_fence3]
    have h3 : stripFenceClose (inner.dropWhile isWsChar ++ fence3) =
        inner.dropWhile isWsChar := by
      unfold stripFenceClose
      simp only [List.reverse_append, show fence3.reverse = fence3 from by decide,
        dropWhile_ws_fence_append, isPrefixOf_append_self, eq_self_iff_true, if_true,
        drop_fence3, List.reverse_reverse]
    rw [h1, h2, h3, trimChars_dropWhile]
  · intro text hno hpl hopen hclose
    have hnone : umlExtract text = none := umlExtract_eq_none hno
    unfold plantUmlPostprocess
    rw [hnone]
    have h1 : stripFencePlantuml text = text := by
      unfold stripFencePlantuml
      simp only [hpl, Bool.false_eq_true, if_false]
    have h2 : stripFenceOpen text = text := by
      unfold stripFenceOpen
      simp only [hopen, Bool.false_eq_true, if_false]
    have h3 : stripFenceClose text = text := by
      unfold stripFenceClose
      simp only [hclose, Bool.false_eq_true, if_false]
    rw [h1, h2, h3]

/-- Witness for C4: the three branches evaluated on concrete replies —
delimiters with noise, a plain code fence, and free text. -/
theorem claim_C4_extraction_witness :
    plantUmlPostprocess (String.toList "noise @startuml A -> B @enduml tail")
      = String.toList "@startuml A -> B @enduml" ∧
    plantUmlPostprocess (String.toList "``` A -> B ```") = String.toList "A -> B" ∧
    plantUmlPostprocess (String.toList " plain text ") = String.toList "plain text" := by
  refine ⟨?_, ?_, ?_⟩
  · have h := claim_C4_extraction.1 (String.toList "noise @startuml A -> B @enduml tail")
      (String.toList "noise ") (String.toList " A -> B ") (String.toList " tail")
      (by decide) (by decide) (by decide)
    rw [h]; decide
  · have h := claim_C4_extraction.2.1 (String.toList "``` A -> B ```")
      (String.toList " A -> B ") (by decide) (by decide) (by decide)
    rw [h]; decide
  · have h := claim_C4_extraction.2.2 (String.toList " plain text ")
      (by decide) (by decide) (by decide) (by decide)
    rw [h]; decide

/-- Claim C5: `diagramUrl` is a deterministic pure function of the diagram
source (it is a Lean function of the source text and the Deflate
collaborator): for empty input it returns `''`; when the codec throws it
returns `''` instead of propagating; and on success it returns the fixed
viewer endpoint followed by the URL-safe base64 of the compressed UTF-8
bytes of the source. -/
theorem claim_C5_diagramUrl (deflate : List Nat → Option (List Nat)) (code : String) :
    (code = "" → diagramUrl deflate code = "") ∧
    (deflate (utf8Bytes code) = none → diagramUrl deflate code = "") ∧
    (∀ out, code ≠ "" → deflate (utf8Bytes code) = some out →
      diagramUrl deflate code = krokiBase ++ (urlSafe (b64Encode out)).asString) := by
  refine ⟨?_, ?_, ?_⟩
  · intro h
    simp [diagramUrl, h]
  · intro h
    unfold diagramUrl
    by_cases hc : code = "" <;> simp [hc, h]
  · intro out hne hsome
    simp [diagramUrl, hne, hsome]

/-- Witness for C5: the empty source, a throwing codec, and an identity
codec on the one-byte source `"A"`. -/
theorem claim_C5_diagramUrl_witness :
    diagramUrl (fun b => some b) "" = "" ∧
    diagramUrl (fun _ => none) "A" = "" ∧
    diagramUrl (fun b => some b) "A" = "https://kroki.io/plantuml/svg/QQ==" := by
  refine ⟨?_, ?_, ?_⟩
  · exact (claim_C5_diagramUrl (fun b => some b) "").1 rfl
  · exact (claim_C5_diagramUrl (fun _ => none) "A").2.1 rfl
  · have h := (claim_C5_diagramUrl (fun b => some b) "A").2.2 (utf8Bytes "A")
      (by decide) rfl
    rw [h]; decide

/-- Claim C6: with no credential supplied (`setApiKey` never called, so
`ai = false`), every session operation — `createChat`, `createSddChat`,
`generatePRD`, `generatePlantUML` — fails with the configuration error.
The generation results are stated for an arbitrary network oracle, so the
failure is independent of the network: no network call is attempted. -/
theorem claim_C6_failFast (svc : GeminiService) (h : svc.ai = false) :
    createChat svc = Except.error CallError.config ∧
    createSddChat svc = Except.error CallError.config ∧
    (∀ (hist plat : String) (net : String → Except Unit (Option String)),
      generatePRD svc hist plat net = Except.error CallError.config) ∧
    (∀ (hist plat : String) (net : String → Except Unit (Option String)),
      generatePlantUML svc hist plat net = Except.error CallError.config) := by
  have he : ensureInitialized svc = Except.error CallError.config := by
    unfold ensureInitialized
    rw [h]
    rfl
  refine ⟨?_, ?_, ?_, ?_⟩ <;>
    simp [createChat, createSddChat, generatePRD, generatePlantUML, he]

/-- Witness for C6: the never-initialized service, with a network oracle
that would succeed if it were ever consulted. -/
theorem claim_C6_failFast_witness :
    createChat svcNoKey = Except.error CallError.config ∧
    createSddChat svcNoKey = Except.error CallError.config ∧
    generatePRD svcNoKey "history" "Python" (fun _ => Except.ok (some "doc"))
      = Except.error CallError.config ∧
    generatePlantUML svcNoKey "history" "Python" (fun _ => Except.ok (some "@startuml\n@enduml"))
      = Except.error CallError.config := by
  have h := claim_C6_failFast svcNoKey rfl
  exact ⟨h.1, h.2.1, h.2.2.1 "history" "Python" _, h.2.2.2 "history" "Python" _⟩

/-- Counterexample to C1 as stated: a run of `finishAndGenerate` in which
the PRD call succeeds with `"PRD content"` and the diagram call rejects.
The phase does revert to `consulting` and the diagram artifact stays
unset, but `prdContent` was already assigned before the second call and is
left set (non-empty) — contradicting "neither the PRD artifact nor the
diagram artifact is left set". -/
theorem claim_C1_counterexample :
    (finishAndGenerate initApp svcWithKey
        (fun _ => Except.ok (some "PRD content")) (fun _ => Except.error ())).state
      = AppState.consulting ∧
    (finishAndGenerate initApp svcWithKey
        (fun _ => Except.ok (some "PRD content")) (fun _ => Except.error ())).plantUmlCode
      = "" ∧
    (finishAndGenerate initApp svcWithKey
        (fun _ => Except.ok (some "PRD content")) (fun _ => Except.error ())).prdContent
      = "PRD content" ∧
    (finishAndGenerate initApp svcWithKey
        (fun _ => Except.ok (some "PRD content")) (fun _ => Except.error ())).prdContent
      ≠ "" := by
  refine ⟨?_, ?_, ?_, ?_⟩ <;> decide

/-- Claim C1 (amended): any failure in `finishAndGenerate` aborts the
operation, reverts the phase to `consulting`, surfaces the generic
`生成失敗，請重試` alert, and never sets the diagram artifact; if the first
(PRD) call fails neither artifact is touched, but if the second (diagram)
call fails the PRD artifact set by the successful first call remains set
(it is merely not shown, the wizard no longer being in the results
phase). -/
theorem claim_C1_generation_failure (s : App) (svc : GeminiService)
    (netPrd netUml : String → Except Unit (Option String)) :
    (∀ e, generatePRD svc (compileHistory s.messages) s.targetPlatform netPrd
        = Except.error e →
      (finishAndGenerate s svc netPrd netUml).state = AppState.consulting ∧
      (finishAndGenerate s svc netPrd netUml).prdContent = s.prdContent ∧
      (finishAndGenerate s svc netPrd netUml).plantUmlCode = s.plantUmlCode ∧
      (finishAndGenerate s svc netPrd netUml).alerts = s.alerts ++ ["生成失敗，請重試"]) ∧
    (∀ prd e, generatePRD svc (compileHistory s.messages) s.targetPlatform netPrd
        = Except.ok prd →
      generatePlantUML svc (compileHistory s.messages) s.targetPlatform netUml
        = Except.error e →
      (finishAndGenerate s svc netPrd netUml).state = AppState.consulting ∧
      (finishAndGenerate s svc netPrd netUml).plantUmlCode = s.plantUmlCode ∧
      (finishAndGenerate s svc netPrd netUml).prdContent = prd ∧
      (finishAndGenerate s svc netPrd netUml).alerts = s.alerts ++ ["生成失敗，請重試"]) := by
  constructor
  · intro e h1
    unfold finishAndGenerate
    dsimp only
    rw [h1]
    exact ⟨rfl, rfl, rfl, rfl⟩
  · intro prd e h1 h2
    unfold finishAndGenerate
    dsimp only
    rw [h1, h2]
    exact ⟨rfl, rfl, rfl, rfl⟩

/-- Witness for C1 (amended): a concrete run for each failing call. -/
theorem claim_C1_generation_failure_witness :
    (finishAndGenerate initApp svcWithKey (fun _ => Except.error ())
        (fun _ => Except.ok (some "@startuml\n@enduml"))).state = AppState.consulting ∧
    (finishAndGenerate initApp svcWithKey (fun _ => Except.error ())
        (fun _ => Except.ok (some "@startuml\n@enduml"))).prdContent = "" ∧
    (finishAndGenerate initApp svcWithKey (fun _ => Except.ok (some "PRD content"))
        (fun _ => Except.error ())).plantUmlCode = "" ∧
    (finishAndGenerate initApp svcWithKey (fun _ => Except.ok (some "PRD content"))
        (fun _ => Except.error ())).alerts = ["生成失敗，請重試"] := by
  have hA := (claim_C1_generation_failure initApp svcWithKey (fun _ => Except.error ())
    (fun _ => Except.ok (some "@startuml\n@enduml"))).1 CallError.delivery rfl
  have hB := (claim_C1_generation_failure initApp svcWithKey
    (fun _ => Except.ok (some "PRD content")) (fun _ => Except.error ())).2
    (cleanMarkdown "PRD content") CallError.delivery rfl rfl
  exact ⟨hA.1, hA.2.1, hB.2.1, hB.2.2.2⟩

/-- Claim C7: every asynchronous entry point clears its busy flag when the
call settles, success or failure — the oracles are arbitrary, so both the
resolved and the rejected case are covered.  For the chat-creating entry
points (`startConsultation`, `generateSdd`) the credential is assumed
installed: their chat-creation step runs outside the `try` block, and the
entry points are only reachable once the API key has been submitted.  For
`finishAndGenerate` the busy state is the `generating` phase, and the
settled state is never `generating`. -/
theorem claim_C7_busy_cleared :
    (∀ (s : App) (svc : GeminiService) (net : ChatNet),
      (jsTrim s.userInput ≠ "" ∨ s.selectedImages ≠ []) → svc.ai = true →
      (startConsultation s svc net).isChatLoading = false) ∧
    (∀ (s : App) (net : ChatNet),
      (jsTrim s.userInput ≠ "" ∨ s.selectedImages ≠ []) → s.chatInstance = true →
      (sendMessage s net).isChatLoading = false) ∧
    (∀ (s : App) (svc : GeminiService) (net : String → Except Unit (Option String)),
      jsTrim s.sddInput ≠ "" → svc.ai = true →
      (generateSdd s svc net).isSddGenerating = false) ∧
    (∀ (s : App) (net : String → Except Unit (Option String)),
      jsTrim s.sddReplyInput ≠ "" → s.sddChatInstance = true →
      (sendSddReply s net).isSddGenerating = false) ∧
    (∀ (s : App) (svc : GeminiService) (netPrd netUml : String → Except Unit (Option String)),
      (finishAndGenerate s svc netPrd netUml).state ≠ AppState.generating) := by
  refine ⟨?_, ?_, ?_, ?_, ?_⟩
  · intro s svc net hg hsvc
    have hgg : ¬(jsTrim s.userInput = "" ∧ s.selectedImages = []) := by
      rintro ⟨hA, hB⟩
      rcases hg with h | h
      · exact h hA
      · exact h hB
    have hcc : createChat svc = Except.ok
        { model := geminiModel, systemInstruction := CONSULTANT_INSTRUCTION,
          temperature := (7 : ℚ) / 10 } := by
      simp [createChat, ensureInitialized, hsvc]
    unfold startConsultation
    rw [if_neg hgg]
    dsimp only
    rw [hcc]
  · intro s net hg hci
    have hgg : ¬((jsTrim s.userInput = "" ∧ s.selectedImages = []) ∨ s.chatInstance = false) := by
      rintro (⟨hA, hB⟩ | hC)
      · rcases hg with h | h
        · exact h hA
        · exact h hB
      · rw [hci] at hC
        exact Bool.noConfusion hC
    unfold sendMessage
    rw [if_neg hgg]
  · intro s svc net hg hsvc
    have hcc : createSddChat svc = Except.ok
        { model := geminiModel, systemInstruction := ARCHITECT_INSTRUCTION,
          temperature := (5 : ℚ) / 10 } := by
      simp [createSddChat, ensureInitialized, hsvc]
    unfold generateSdd
    rw [if_neg hg]
    dsimp only
    rw [hcc]
  · intro s net hg hci
    have hgg : ¬(jsTrim s.sddReplyInput = "" ∨ s.sddChatInstance = false) := by
      rintro (h | hC)
      · exact hg h
      · rw [hci] at hC
        exact Bool.noConfusion hC
    unfold sendSddReply
    rw [if_neg hgg]
  · intro s svc netPrd netUml
    unfold finishAndGenerate
    dsimp only
    cases h1 : generatePRD svc (compileHistory s.messages) s.targetPlatform netPrd with
    | error e => simp
    | ok prd =>
      cases h2 : generatePlantUML svc (compileHistory s.messages) s.targetPlatform netUml with
      | error e => simp
      | ok d => simp

/-- Witness for C7: each entry point at a concrete state with a rejecting
oracle (and `finishAndGenerate` also with succeeding oracles). -/
theorem claim_C7_busy_cleared_witness :
    (startConsultation { initApp with userInput := "hi" } svcWithKey
        (fun _ => Except.error ())).isChatLoading = false ∧
    (sendMessage { initApp with userInput := "hi", chatInstance := true }
        (fun _ => Except.error ())).isChatLoading = false ∧
    (generateSdd { initApp with sddInput := "a PRD" } svcWithKey
        (fun _ => Except.error ())).isSddGenerating = false ∧
    (sendSddReply { initApp with sddReplyInput := "go on", sddChatInstance := true }
        (fun _ => Except.error ())).isSddGenerating = false ∧
    (finishAndGenerate initApp svcWithKey (fun _ => Except.ok (some "PRD"))
        (fun _ => Except.ok (some "@startuml\n@enduml"))).state ≠ AppState.generating := by
  refine ⟨?_, ?_, ?_, ?_, ?_⟩
  · exact claim_C7_busy_cleared.1 _ svcWithKey _ (Or.inl (by decide)) rfl
  · exact claim_C7_busy_cleared.2.1 _ _ (Or.inl (by decide)) rfl
  · exact claim_C7_busy_cleared.2.2.1 _ svcWithKey _ (by decide) rfl
  · exact claim_C7_busy_cleared.2.2.2.1 _ _ (by decide) rfl
  · exact claim_C7_busy_cleared.2.2.2.2 initApp svcWithKey _ _

/-- Claim C10: when the initial SDD generation call fails, no message is
appended to the SDD history (`sddMessages` is left empty, as cleared at the
start of the call, and no user message is ever appended), `sddResult`
retains its previous value, only a blocking alert (`對話啟動失敗`) is
surfaced, and the busy flag is cleared — unlike the chat sends, which
append a user message plus a fallback reply. -/
theorem claim_C10_generateSdd_failure (s : App) (svc : GeminiService)
    (net : String → Except Unit (Option String))
    (hg : jsTrim s.sddInput ≠ "") (hsvc : svc.ai = true)
    (hfail : net (getSddInitialPrompt s.sddInput s.sddMode) = Except.error ()) :
    (generateSdd s svc net).sddMessages = [] ∧
    (generateSdd s svc net).sddResult = s.sddResult ∧
    (generateSdd s svc net).isSddGenerating = false ∧
    (generateSdd s svc net).alerts = s.alerts ++ ["對話啟動失敗"] := by
  have hcc : createSddChat svc = Except.ok
      { model := geminiModel, systemInstruction := ARCHITECT_INSTRUCTION,
        temperature := (5 : ℚ) / 10 } := by
    simp [createSddChat, ensureInitialized, hsvc]
  unfold generateSdd
  rw [if_neg hg]
  dsimp only
  rw [hcc]
  dsimp only
  rw [hfail]
  exact ⟨rfl, rfl, rfl, rfl⟩

/-- Witness for C10: a concrete failing initial SDD call. -/
theorem claim_C10_generateSdd_failure_witness :
    (generateSdd { initApp with sddInput := "a PRD", sddResult := "old result" }
        svcWithKey (fun _ => Except.error ())).sddMessages = [] ∧
    (generateSdd { initApp with sddInput := "a PRD", sddResult := "old result" }
        svcWithKey (fun _ => Except.error ())).sddResult = "old result" ∧
    (generateSdd { initApp with sddInput := "a PRD", sddResult := "old result" }
        svcWithKey (fun _ => Except.error ())).isSddGenerating = false ∧
    (generateSdd { initApp with sddInput := "a PRD", sddResult := "old result" }
        svcWithKey (fun _ => Except.error ())).alerts = ["對話啟動失敗"] := by
  have h := claim_C10_generateSdd_failure
    { initApp with sddInput := "a PRD", sddResult := "old result" }
    svcWithKey (fun _ => Except.error ()) (by decide) rfl rfl
  exact ⟨h.1, h.2.1, h.2.2.1, h.2.2.2⟩

/-- Claim C8: `reset` returns the wizard to the idle (`initial`) phase and
clears the message history, the PRD content, the diagram code, the chat
instance and the pending attachments, leaving no consultation-flow state
of the previous run set. -/
theorem claim_C8_reset (s : App) :
    (reset s).state = AppState.initial ∧
    (reset s).messages = [] ∧
    (reset s).prdContent = "" ∧
    (reset s).plantUmlCode = "" ∧
    (reset s).chatInstance = false ∧
    (reset s).selectedImages = [] :=
  ⟨rfl, rfl, rfl, rfl, rfl, rfl⟩

/-! ### Index-filter characterisation of `removeImage` -/

lemma enumFrom_filter_map (idx : Nat) :
    ∀ (l : List ImageAttachment) (k : Nat),
      ((List.enumFrom k l).filter fun p => p.1 ≠ idx).map Prod.snd
        = if idx < k then l else l.take (idx - k) ++ l.drop (idx - k + 1) := by
  intro l
  induction l with
  | nil =>
    intro k
    by_cases hk : idx < k <;> simp [hk]
  | cons a t ih =>
    intro k
    simp only [ne_eq] at ih ⊢
    simp only [List.enumFrom, List.filter_cons]
    by_cases hk : k = idx
    · subst hk
      simp only [not_true_eq_false, decide_False, Bool.false_eq_true, if_false]
      rw [ih (k + 1)]
      have h1 : k < k + 1 := by omega
      have h2 : ¬ k < k := by omega
      simp [h1, h2]
    · have hkeep : (decide ¬(k = idx)) = true := by simp [hk]
      simp only [hkeep, if_true, List.map_cons]
      rw [ih (k + 1)]
      by_cases hlt : idx < k
      · have h1 : idx < k + 1 := by omega
        simp [h1, hlt]
      · have hgt : k < idx := by omega
        have h1 : ¬ idx < k + 1 := by omega
        have h2 : idx - k = (idx - (k + 1)) + 1 := by omega
        simp only [h1, if_false, hlt]
        rw [h2, List.take_succ_cons, List.drop_succ_cons]
        simp

lemma removeImage_eq (l : List ImageAttachment) (idx : Nat) :
    removeImage l idx = l.take idx ++ l.drop (idx + 1) := by
  unfold removeImage
  rw [show l.enum = List.enumFrom 0 l from rfl, enumFrom_filter_map idx l 0]
  simp

/-- Claim C9: removing an attachment by a valid index removes exactly the
element at that position — every attachment before the index is found
unchanged at its old position, every attachment after it is found
unchanged one position earlier, and the length shrinks by one.  (Equality
of list entries is equality of whole `ImageAttachment` records, so
`mimeType`, `data` and `url` are all preserved.) -/
theorem claim_C9_removeImage (l : List ImageAttachment) (idx : Nat) (h : idx < l.length) :
    (removeImage l idx).length = l.length - 1 ∧
    (∀ j, j < idx → (removeImage l idx)[j]? = l[j]?) ∧
    (∀ j, idx ≤ j → (removeImage l idx)[j]? = l[j + 1]?) := by
  have hmin : min idx l.length = idx := Nat.min_eq_left (Nat.le_of_lt h)
  refine ⟨?_, ?_, ?_⟩
  · rw [removeImage_eq, List.length_append, List.length_take, List.length_drop, hmin]
    omega
  · intro j hj
    rw [removeImage_eq, List.getElem?_append, List.length_take, hmin, if_pos hj,
      List.getElem?_take, if_pos hj]
  · intro j hj
    rw [removeImage_eq, List.getElem?_append, List.length_take, hmin,
      if_neg (by omega), List.getElem?_drop]
    congr 1
    omega

/-- Witness for C9: removing index 1 from a three-attachment list. -/
theorem claim_C9_removeImage_witness :
    (removeImage [⟨"image/png", "d0", "u0"⟩, ⟨"image/jpeg", "d1", "u1"⟩,
        ⟨"image/gif", "d2", "u2"⟩] 1).length = 2 ∧
    (removeImage [⟨"image/png", "d0", "u0"⟩, ⟨"image/jpeg", "d1", "u1"⟩,
        ⟨"image/gif", "d2", "u2"⟩] 1)[0]? = some ⟨"image/png", "d0", "u0"⟩ ∧
    (removeImage [⟨"image/png", "d0", "u0"⟩, ⟨"image/jpeg", "d1", "u1"⟩,
        ⟨"image/gif", "d2", "u2"⟩] 1)[1]? = some ⟨"image/gif", "d2", "u2"⟩ := by
  have h := claim_C9_removeImage
    [⟨"image/png", "d0", "u0"⟩, ⟨"image/jpeg", "d1", "u1"⟩, ⟨"image/gif", "d2", "u2"⟩]
    1 (by decide)
  refine ⟨?_, ?_, ?_⟩
  · rw [h.1]
    decide
  · rw [h.2.1 0 (by decide)]
    decide
  · rw [h.2.2 1 (by decide)]
    decide

/-! ### Evaluation lemmas for successful sends -/

lemma sendMessage_okFixed (s : App) (r : Option String)
    (hg : jsTrim s.userInput ≠ "") (hci : s.chatInstance = true) :
    sendMessage s (fun _ => Except.ok r) =
      { s with messages := s.messages ++
                 [{ role := Role.user, text := s.userInput,
                    images := s.selectedImages.map ImageAttachment.url },
                  { role := Role.model, text := jsOr r "" }],
               userInput := "", selectedImages := [], isChatLoading := false } := by
  have hgg : ¬((jsTrim s.userInput = "" ∧ s.selectedImages = []) ∨ s.chatInstance = false) := by
    rintro (⟨hA, _⟩ | hC)
    · exact hg hA
    · rw [hci] at hC
      exact Bool.noConfusion hC
  unfold sendMessage
  rw [if_neg hgg]
  dsimp only
  simp [List.append_assoc]

lemma startConsultation_okFixed (s : App) (r : Option String)
    (hg : ¬(jsTrim s.userInput = "" ∧ s.selectedImages = [])) :
    startConsultation s svcWithKey (fun _ => Except.ok r) =
      { s with state := AppState.consulting,
               messages := s.messages ++
                 [{ role := Role.user, text := s.userInput,
                    images := s.selectedImages.map ImageAttachment.url },
                  { role := Role.model, text := jsOr r "" }],
               userInput := "", selectedImages := [],
               isChatLoading := false, chatInstance := true } := by
  have hcc : createChat svcWithKey = Except.ok
      { model := geminiModel, systemInstruction := CONSULTANT_INSTRUCTION,
        temperature := (7 : ℚ) / 10 } := by
    simp [createChat, ensureInitialized, svcWithKey]
  unfold startConsultation
  rw [if_neg hg]
  dsimp only
  rw [hcc]
  dsimp only
  simp [List.append_assoc]

lemma altRoles_length (n : Nat) : (altRoles n).length = 2 * n := by
  induction n with
  | zero => rfl
  | succ k ih =>
    simp only [altRoles, List.length_cons, ih]
    omega

lemma runOkSends_shape :
    ∀ (sends : List (String × Option String)) (s : App),
      s.chatInstance = true →
      (∀ pr ∈ sends, jsTrim pr.1 ≠ "") →
      (runOkSends s sends).messages.map Message.role
          = s.messages.map Message.role ++ altRoles sends.length ∧
      (runOkSends s sends).chatInstance = true := by
  intro sends
  induction sends with
  | nil =>
    intro s h _
    simp [runOkSends, altRoles, h]
  | cons pr rest ih =>
    obtain ⟨t, r⟩ := pr
    intro s hci hall
    have ht : jsTrim t ≠ "" := hall (t, r) (by simp)
    have hstep := sendMessage_okFixed { s with userInput := t } r ht hci
    have hnew := ih (sendMessage { s with userInput := t } (fun _ => Except.ok r))
      (by rw [hstep]; exact hci)
      (fun pr hpr => hall pr (by simp [hpr]))
    simp only [runOkSends]
    refine ⟨?_, hnew.2⟩
    rw [hnew.1, hstep]
    simp [altRoles, List.append_assoc]

/-- Claim C2: a successful session of `n` sends — `startConsultation`
followed by `sendMessage` calls, every external call resolving — produces a
message history of length exactly `2 × n` whose roles alternate
user/assistant starting with a user message. -/
theorem claim_C2_history_shape (idea : String) (r0 : Option String)
    (sends : List (String × Option String))
    (hidea : jsTrim idea ≠ "")
    (hsends : ∀ pr ∈ sends, jsTrim pr.1 ≠ "") :
    (consultationRun idea r0 sends).messages.length = 2 * (1 + sends.length) ∧
    (consultationRun idea r0 sends).messages.map Message.role
      = altRoles (1 + sends.length) := by
  have hstart := startConsultation_okFixed { initApp with userInput := idea } r0
    (fun hc => hidea hc.1)
  have hchat : (startConsultation { initApp with userInput := idea } svcWithKey
      (fun _ => Except.ok r0)).chatInstance = true := by
    rw [hstart]
  have hrun := runOkSends_shape sends _ hchat hsends
  have hroles : (consultationRun idea r0 sends).messages.map Message.role
      = altRoles (1 + sends.length) := by
    unfold consultationRun
    rw [hrun.1, hstart]
    have hsplit : altRoles (1 + sends.length)
        = Role.user :: Role.model :: altRoles sends.length := by
      rw [Nat.add_comm]
      rfl
    rw [hsplit]
    simp [initApp]
  refine ⟨?_, hroles⟩
  have hlen := congrArg List.length hroles
  rw [List.length_map, altRoles_length] at hlen
  exact hlen

/-- Witness for C2: one initial send plus one follow-up send, both
successful — four messages, roles user/assistant/user/assistant. -/
theorem claim_C2_history_shape_witness :
    (consultationRun "做一個記帳 App" (some "請問目標使用者是誰？")
        [("上班族", some "好的，還有其他需求嗎？")]).messages.length = 4 ∧
    (consultationRun "做一個記帳 App" (some "請問目標使用者是誰？")
        [("上班族", some "好的，還有其他需求嗎？")]).messages.map Message.role
      = [Role.user, Role.model, Role.user, Role.model] := by
  have h := claim_C2_history_shape "做一個記帳 App" (some "請問目標使用者是誰？")
    [("上班族", some "好的，還有其他需求嗎？")] (by decide)
    (by
      intro pr hpr
      rw [List.mem_singleton] at hpr
      subst hpr
      decide)
  exact ⟨h.1, h.2⟩

/-- Claim C3: a failed send appends exactly one user message and exactly
one fallback assistant message — the history is the old history (no
previously appended message is mutated) plus exactly those two messages,
so it grows by exactly 2, never 1 or 0.  Stated for `sendMessage`,
`sendSddReply`, and the initial `startConsultation` send, each with a
rejecting oracle. -/
theorem claim_C3_failed_send :
    (∀ (s : App) (net : ChatNet),
      (jsTrim s.userInput ≠ "" ∨ s.selectedImages ≠ []) → s.chatInstance = true →
      (∀ p, net p = Except.error ()) →
      (sendMessage s net).messages = s.messages ++
        [{ role := Role.user, text := s.userInput,
           images := s.selectedImages.map ImageAttachment.url },
         { role := Role.model, text := "連線錯誤。" }]) ∧
    (∀ (s : App) (net : String → Except Unit (Option String)),
      jsTrim s.sddReplyInput ≠ "" → s.sddChatInstance = true →
      (∀ p, net p = Except.error ()) →
      (sendSddReply s net).sddMessages = s.sddMessages ++
        [{ role := Role.user, text := s.sddReplyInput },
         { role := Role.model, text := "連線錯誤，請重試。" }]) ∧
    (∀ (s : App) (net : ChatNet),
      (jsTrim s.userInput ≠ "" ∨ s.selectedImages ≠ []) →
      (∀ p, net p = Except.error ()) →
      (startConsultation s svcWithKey net).messages = s.messages ++
        [{ role := Role.user, text := s.userInput,
           images := s.selectedImages.map ImageAttachment.url },
         { role := Role.model, text := "發生錯誤，請稍後再試。" }]) := by
  refine ⟨?_, ?_, ?_⟩
  · intro s net hg hci hnet
    have hgg : ¬((jsTrim s.userInput = "" ∧ s.selectedImages = []) ∨ s.chatInstance = false) := by
      rintro (⟨hA, hB⟩ | hC)
      · rcases hg with h | h
        · exact h hA
        · exact h hB
      · rw [hci] at hC
        exact Bool.noConfusion hC
    unfold sendMessage
    rw [if_neg hgg]
    dsimp only
    rw [hnet]
    simp [List.append_assoc]
  · intro s net hg hci hnet
    have hgg : ¬(jsTrim s.sddReplyInput = "" ∨ s.sddChatInstance = false) := by
      rintro (h | hC)
      · exact hg h
      · rw [hci] at hC
        exact Bool.noConfusion hC
    unfold sendSddReply
    rw [if_neg hgg]
    dsimp only
    rw [hnet]
    simp [List.append_assoc]
  · intro s net hg hnet
    have hgg : ¬(jsTrim s.userInput = "" ∧ s.selectedImages = []) := by
      rintro ⟨hA, hB⟩
      rcases hg with h | h
      · exact h hA
      · exact h hB
    have hcc : createChat svcWithKey = Except.ok
        { model := geminiModel, systemInstruction := CONSULTANT_INSTRUCTION,
          temperature := (7 : ℚ) / 10 } := by
      simp [createChat, ensureInitialized, svcWithKey]
    unfold startConsultation
    rw [if_neg hgg]
    dsimp only
    rw [hcc]
    dsimp only
    rw [hnet]
    simp [List.append_assoc]

/-- Witness for C3: a failing `sendMessage`, a failing `sendSddReply`, and
a failing `startConsultation`, each at a concrete state. -/
theorem claim_C3_failed_send_witness :
    (sendMessage { initApp with userInput := "hello", chatInstance := true }
        (fun _ => Except.error ())).messages =
      [{ role := Role.user, text := "hello", images := [] },
       { role := Role.model, text := "連線錯誤。" }] ∧
    (sendSddReply { initApp with sddReplyInput := "go on", sddChatInstance := true }
        (fun _ => Except.error ())).sddMessages =
      [{ role := Role.user, text := "go on" },
       { role := Role.model, text := "連線錯誤，請重試。" }] ∧
    (startConsultation { initApp with userInput := "an idea" } svcWithKey
        (fun _ => Except.error ())).messages =
      [{ role := Role.user, text := "an idea", images := [] },
       { role := Role.model, text := "發生錯誤，請稍後再試。" }] := by
  refine ⟨?_, ?_, ?_⟩
  · rw [claim_C3_failed_send.1 _ _ (Or.inl (by decide)) rfl (fun _ => rfl)]
    decide
  · rw [claim_C3_failed_send.2.1 _ _ (by decide) rfl (fun _ => rfl)]
    decide
  · rw [claim_C3_failed_send.2.2 _ _ (Or.inl (by decide)) (fun _ => rfl)]
    decide

end Byok
